import Mathlib

/-!
Shallow embedding of the dispersion and lens-parameter reconciliation logic of
`OpticalObject.py` (OpticsWorkbench).

Modelling conventions:
* Python floats are modelled as exact rationals; the single irrational-valued
  operation, `math.sqrt`, is modelled as `Real.sqrt` on the cast of the
  rational radicand.
* Python runtime exceptions are modelled as explicit `PyError` values carried
  in `Except` / `Option`; raising an exception aborts the rest of the
  function body, so every mutation performed before the raise is kept and
  everything after it is dropped.
* A FreeCAD feature object `fp` is modelled by `LensRecord`; the dynamic
  presence of the `Sellmeier` property (tested with `hasattr` in the source)
  is the field `hasSellmeier`.  Property writes from inside `onChanged`
  re-trigger `onChanged` with the `update` flag cleared, which returns
  immediately without touching anything (first line of `onChanged`), so these
  nested no-op notifications are modelled by plain record updates.
-/

/-- Python runtime errors that the embedded code can raise:
`ZeroDivisionError` from a zero Sellmeier denominator, the `math.sqrt`
domain `ValueError`, the `ValueError` from unpacking a sequence that does not
have exactly six elements, the host `TypeError` from assigning a non-list to
the float-list property, and `KeyError` from a missing dict key. -/
inductive PyError where
  | zeroDivisionError
  | mathDomainError
  | unpackError
  | typeError
  | keyError
  deriving DecidableEq, Repr

/-- The checked radicand of `refraction_index_from_sellmeier` (the expression
under `math.sqrt` at line 194 of `OpticalObject.py`), together with the
Python runtime checks that precede the square root: unpacking the six
coefficients `b1, b2, b3, c1, c2, c3 = sellmeier` (a `ValueError` when the
arity differs), the three divisions (a `ZeroDivisionError` when some
`l**2 - ci` is zero), and the `math.sqrt` domain (a `ValueError` when the
radicand is negative). -/
def refraction_radicand (wavelength : ℚ) (sellmeier : List ℚ) : Except PyError ℚ :=
  match sellmeier with
  | [b1, b2, b3, c1, c2, c3] =>
    if wavelength ^ 2 - c1 = 0 ∨ wavelength ^ 2 - c2 = 0 ∨ wavelength ^ 2 - c3 = 0 then
      Except.error PyError.zeroDivisionError
    else if 1 + b1 * wavelength ^ 2 / (wavelength ^ 2 - c1)
             + b2 * wavelength ^ 2 / (wavelength ^ 2 - c2)
             + b3 * wavelength ^ 2 / (wavelength ^ 2 - c3) < 0 then
      Except.error PyError.mathDomainError
    else
      Except.ok (1 + b1 * wavelength ^ 2 / (wavelength ^ 2 - c1)
          + b2 * wavelength ^ 2 / (wavelength ^ 2 - c2)
          + b3 * wavelength ^ 2 / (wavelength ^ 2 - c3))
  | _ => Except.error PyError.unpackError

/-- `refraction_index_from_sellmeier` (lines 191-195 of `OpticalObject.py`):
`n = math.sqrt(1 + b1*l**2/(l**2 - c1) + b2*l**2/(l**2 - c2) + b3*l**2/(l**2 - c3))`.
The Python runtime faults (arity, zero denominator, negative radicand) are
surfaced as `Except.error`; otherwise the result is the real square root of
the radicand. -/
noncomputable def refraction_index_from_sellmeier (wavelength : ℚ) (sellmeier : List ℚ) :
    Except PyError ℝ :=
  match refraction_radicand wavelength sellmeier with
  | Except.error e => Except.error e
  | Except.ok r => Except.ok (Real.sqrt (r : ℝ))

/-- `LensWorker.getMaterials` (lines 67-85): the fixed material catalog, an
insertion-ordered map from material name to its Sellmeier coefficient
sextuplet `(B1, B2, B3, C1, C2, C3)`, with the sentinel key `?` mapped to
Python `None` (here `none`). -/
def getMaterials : List (String × Option (List ℚ)) :=
  [ ("?", none),
    ("Vacuum", some [0, 0, 0, 0, 0, 0]),
    ("Air", some [4.915889e-4, 5.368273e-5, -1.949567e-4, 4352.140, 17470.01, 4258444000]),
    ("Quartz", some [0.6961663, 0.4079426, 0.8974794, 4679.14826, 13512.0631, 97934002.5]),
    ("PMMA (plexiglass)", some [1.1819, 0, 0, 11313, 0, 0]),
    ("Window glass", some [1.03961212, 0.231792344, 1.01046945, 6000.69867, 20017.9144, 103560653]),
    ("Polycarbonate", some [1.4182, 0, 0, 21304, 0, 0]) ]

/-- Python dict subscription `self.getMaterials()[key]`: `some` of the stored
value when the key is present (the stored value is itself an `Option`, since
the sentinel entry stores `None`), and `none` for a `KeyError`. -/
def lookupMaterial (key : String) : Option (Option (List ℚ)) :=
  (getMaterials.find? (fun p => p.1 == key)).map (fun p => p.2)

/-- The lens feature record: the three reconciled properties of the lens
(`Material` enumeration string, `Sellmeier` float list, `RefractionIndex`
float) plus whether the `Sellmeier` property exists on the object at all
(the `hasattr(fp, 'Sellmeier')` test at line 94). -/
structure LensRecord where
  Material : String
  Sellmeier : List ℚ
  RefractionIndex : ℝ
  hasSellmeier : Bool

/-- Result of one `LensWorker.onChanged` call: the worker's `self.update`
flag after the call, the (possibly partially) mutated record, and the
exception propagated to the caller, if any. -/
structure StepResult where
  update : Bool
  fp : LensRecord
  err : Option PyError

/-- The dispatch body of `LensWorker.onChanged` (lines 96-106), entered with
`self.update` already cleared: the three sequential `if prop == ...` blocks.
An exception aborts the remaining blocks, keeping mutations made so far.
In the `Material` block, when the looked-up value is the sentinel `None`,
the host property system rejects `fp.Sellmeier = None` (a float-list
property cannot be assigned a non-sequence), raising a `TypeError` before
any mutation. -/
noncomputable def onChangedBody (fp : LensRecord) (prop : String) :
    LensRecord × Option PyError :=
  let step1 : LensRecord × Option PyError :=
    if prop = "Material" then
      match lookupMaterial fp.Material with
      | none => (fp, some PyError.keyError)
      | some none => (fp, some PyError.typeError)
      | some (some sellmeier) =>
        let fp1 : LensRecord := { fp with Sellmeier := sellmeier }
        match refraction_index_from_sellmeier 580 fp1.Sellmeier with
        | Except.error e => (fp1, some e)
        | Except.ok n => ({ fp1 with RefractionIndex := n }, none)
    else (fp, none)
  match step1 with
  | (fp1, some e) => (fp1, some e)
  | (fp1, none) =>
    let step2 : LensRecord × Option PyError :=
      if prop = "Sellmeier" then
        match refraction_index_from_sellmeier 580 fp1.Sellmeier with
        | Except.error e => (fp1, some e)
        | Except.ok n => ({ fp1 with RefractionIndex := n }, none)
      else (fp1, none)
    match step2 with
    | (fp2, some e) => (fp2, some e)
    | (fp2, none) =>
      if prop = "RefractionIndex" then
        ({ fp2 with Material := "?", Sellmeier := [] }, none)
      else (fp2, none)

/-- `LensWorker.onChanged` (lines 90-108).  `update` is the worker's
`self.update` re-entrancy flag on entry.  The call returns immediately when
the flag is cleared (line 91); otherwise it clears the flag, returns early
when the record has no `Sellmeier` property (line 94, leaving the flag
cleared), runs the dispatch body, and restores the flag to `True` only when
the body finished without raising (line 108 is skipped when an exception
propagates). -/
noncomputable def onChanged (update : Bool) (fp : LensRecord) (prop : String) : StepResult :=
  match update with
  | false => ⟨false, fp, none⟩
  | true =>
    match fp.hasSellmeier with
    | false => ⟨false, fp, none⟩
    | true =>
      match onChangedBody fp prop with
      | (fp1, some e) => ⟨false, fp1, some e⟩
      | (fp1, none) => ⟨true, fp1, none⟩

/-- Helper: the dispersion engine on the Vacuum entry evaluates to exactly 1. -/
theorem vacuum_refraction_eval :
    refraction_index_from_sellmeier 580 [0, 0, 0, 0, 0, 0] = Except.ok 1 := by
  have h : refraction_radicand 580 [0, 0, 0, 0, 0, 0] = Except.ok 1 := by
    unfold refraction_radicand
    norm_num
  unfold refraction_index_from_sellmeier
  rw [h]
  norm_num

/-- Claim C4: for the all-zero coefficient sextuplet, which is exactly the
catalog's Vacuum entry, the dispersion engine at wavelength 580 returns
exactly 1. -/
theorem vacuum_refraction_index_exact :
    lookupMaterial "Vacuum" = some (some [0, 0, 0, 0, 0, 0]) ∧
    refraction_index_from_sellmeier 580 [0, 0, 0, 0, 0, 0] = Except.ok 1 :=
  ⟨by decide, vacuum_refraction_eval⟩

/-- Claim C6: a notification delivered while the guard is in the Propagating
state (`self.update == False`) is ignored entirely: no field is written, no
recomputation happens, no error is raised, and the flag stays cleared. -/
theorem propagating_guard_ignores_notification (fp : LensRecord) (prop : String) :
    onChanged false fp prop = ⟨false, fp, none⟩ := rfl

/-- Claim C1 (code-bug evidence): with the guard Idle, changing `Material` to
the sentinel `?` does not skip the coefficient lookup and the dispersion
recomputation; the lookup is performed, its no-data result flows into the
`Sellmeier` property assignment, an exception is raised, and the guard is
left cleared rather than restored to Idle. -/
theorem material_sentinel_raises :
    (onChanged true ⟨"?", [], 1, true⟩ "Material").err = some PyError.typeError ∧
    (onChanged true ⟨"?", [], 1, true⟩ "Material").update = false :=
  ⟨rfl, rfl⟩

/-- Helper: a Sellmeier list with `B1 = -2` makes the radicand at 580 nm
equal `1 - 2 = -1`, so the engine raises the math-domain error. -/
theorem neg_radicand_eval :
    refraction_index_from_sellmeier 580 [-2, 0, 0, 0, 0, 0]
      = Except.error PyError.mathDomainError := by
  have h : refraction_radicand 580 [-2, 0, 0, 0, 0, 0]
      = Except.error PyError.mathDomainError := by
    unfold refraction_radicand
    norm_num
  unfold refraction_index_from_sellmeier
  rw [h]

/-- Claim C2 (counterexample): a `Sellmeier` edit whose recomputation raises
a math-domain error (radicand `1 - 2 < 0`) leaves the guard cleared
(`update = False`), contradicting the claim that the guard is restored to
Idle when the call finishes. -/
theorem domain_error_locks_guard_counterexample :
    (onChanged true ⟨"?", [-2, 0, 0, 0, 0, 0], 1, true⟩ "Sellmeier").err
        = some PyError.mathDomainError ∧
    ¬ ((onChanged true ⟨"?", [-2, 0, 0, 0, 0, 0], 1, true⟩ "Sellmeier").update = true) := by
  have hstep : onChanged true ⟨"?", [-2, 0, 0, 0, 0, 0], 1, true⟩ "Sellmeier"
      = ⟨false, ⟨"?", [-2, 0, 0, 0, 0, 0], 1, true⟩, some PyError.mathDomainError⟩ := by
    unfold onChanged onChangedBody
    simp [neg_radicand_eval]
  rw [hstep]
  simp

/-- Claim C2 (amended): when the dispatch body of a propagation raises, the
error is re-surfaced to the caller, but the re-entrancy guard is NOT
restored to Idle: `self.update` remains `False` after the call, leaving the
record locked against further notifications. -/
theorem domain_error_leaves_guard_cleared (fp : LensRecord) (prop : String) (e : PyError)
    (h : (onChanged true fp prop).err = some e) :
    (onChanged true fp prop).err = some e ∧ (onChanged true fp prop).update = false := by
  refine ⟨h, ?_⟩
  unfold onChanged at h ⊢
  cases hS : fp.hasSellmeier
  · simp [hS] at h
  · rcases hB : onChangedBody fp prop with ⟨fp1, oe⟩
    cases oe <;> simp [hS, hB] at h ⊢

/-- Witness for the amended Claim C2 at a concrete input. -/
theorem domain_error_leaves_guard_cleared_witness :
    (onChanged true ⟨"?", [-2, 0, 0, 0, 0, 0], 1, true⟩ "Sellmeier").err
        = some PyError.mathDomainError ∧
    (onChanged true ⟨"?", [-2, 0, 0, 0, 0, 0], 1, true⟩ "Sellmeier").update = false := by
  have h : (onChanged true ⟨"?", [-2, 0, 0, 0, 0, 0], 1, true⟩ "Sellmeier").err
      = some PyError.mathDomainError := by
    unfold onChanged onChangedBody
    simp [neg_radicand_eval]
  exact domain_error_leaves_guard_cleared ⟨"?", [-2, 0, 0, 0, 0, 0], 1, true⟩ "Sellmeier"
    PyError.mathDomainError h

/-- Claim C7: with the guard Idle, a direct change of `RefractionIndex` sets
`Material` to the sentinel `?` and `Sellmeier` to the empty list, whatever
the prior values of the record's fields, and restores the guard. -/
theorem refraction_index_edit_demotes_material (fp : LensRecord)
    (h : fp.hasSellmeier = true) :
    onChanged true fp "RefractionIndex"
      = ⟨true, { fp with Material := "?", Sellmeier := [] }, none⟩ := by
  unfold onChanged onChangedBody
  simp [h]

/-- Witness for Claim C7 at a concrete record. -/
theorem refraction_index_edit_demotes_material_witness :
    (LensRecord.mk "Vacuum" [0, 0, 0, 0, 0, 0] 7 true).hasSellmeier = true ∧
    onChanged true (LensRecord.mk "Vacuum" [0, 0, 0, 0, 0, 0] 7 true) "RefractionIndex"
      = ⟨true, LensRecord.mk "?" [] 7 true, none⟩ :=
  ⟨rfl, refraction_index_edit_demotes_material (LensRecord.mk "Vacuum" [0, 0, 0, 0, 0, 0] 7 true) rfl⟩

/-- Claim C10: invoking `onChanged` with the guard Idle on a record without a
`Sellmeier` property returns after clearing the guard and never restores it,
so the guard stays in the Propagating state and every subsequent
notification on the record is ignored. -/
theorem missing_sellmeier_attribute_locks_guard (fp : LensRecord) (prop : String)
    (h : fp.hasSellmeier = false) :
    onChanged true fp prop = ⟨false, fp, none⟩ ∧
    ∀ fp2 prop2, onChanged (onChanged true fp prop).update fp2 prop2 = ⟨false, fp2, none⟩ := by
  have h1 : onChanged true fp prop = ⟨false, fp, none⟩ := by
    unfold onChanged
    simp [h]
  refine ⟨h1, fun fp2 prop2 => ?_⟩
  rw [h1]
  simp [onChanged]

/-- Witness for Claim C10 at a concrete record lacking the property. -/
theorem missing_sellmeier_attribute_locks_guard_witness :
    (LensRecord.mk "Vacuum" [] 1 false).hasSellmeier = false ∧
    (onChanged true (LensRecord.mk "Vacuum" [] 1 false) "Material"
        = ⟨false, LensRecord.mk "Vacuum" [] 1 false, none⟩ ∧
      ∀ fp2 prop2,
        onChanged (onChanged true (LensRecord.mk "Vacuum" [] 1 false) "Material").update fp2 prop2
          = ⟨false, fp2, none⟩) :=
  ⟨rfl, missing_sellmeier_attribute_locks_guard (LensRecord.mk "Vacuum" [] 1 false) "Material" rfl⟩

/-- Claim C8: with the guard Idle, a direct `Sellmeier` change recomputes
`RefractionIndex` through the dispersion engine at 580 nm and leaves the
`Material` field (and `Sellmeier` itself) unchanged — the material is not
demoted to the custom sentinel; the guard is restored to Idle. -/
theorem sellmeier_edit_recomputes_index_keeps_material (fp : LensRecord) (n : ℝ)
    (hS : fp.hasSellmeier = true)
    (hok : refraction_index_from_sellmeier 580 fp.Sellmeier = Except.ok n) :
    onChanged true fp "Sellmeier" = ⟨true, { fp with RefractionIndex := n }, none⟩ := by
  unfold onChanged onChangedBody
  simp [hS, hok]

/-- Witness for Claim C8 at a concrete record carrying the Vacuum list. -/
theorem sellmeier_edit_recomputes_index_keeps_material_witness :
    (LensRecord.mk "?" [0, 0, 0, 0, 0, 0] 5 true).hasSellmeier = true ∧
    refraction_index_from_sellmeier 580 (LensRecord.mk "?" [0, 0, 0, 0, 0, 0] 5 true).Sellmeier
      = Except.ok 1 ∧
    onChanged true (LensRecord.mk "?" [0, 0, 0, 0, 0, 0] 5 true) "Sellmeier"
      = ⟨true, LensRecord.mk "?" [0, 0, 0, 0, 0, 0] 1 true, none⟩ :=
  ⟨rfl, vacuum_refraction_eval,
    sellmeier_edit_recomputes_index_keeps_material (LensRecord.mk "?" [0, 0, 0, 0, 0, 0] 5 true) 1
      rfl vacuum_refraction_eval⟩

/-- Claim C9: a completed `Material`-changed reconciliation to a catalog
entry `m` establishes the quiescent invariant: `Sellmeier` equals exactly the
table's stored coefficient sextuplet for `m`, `RefractionIndex` equals the
dispersion engine applied to those coefficients at 580 nm, and the guard
returns to Idle. -/
theorem material_change_establishes_invariant (fp : LensRecord) (m : String)
    (coeffs : List ℚ) (n : ℝ)
    (hS : fp.hasSellmeier = true) (hm : fp.Material = m)
    (hlook : lookupMaterial m = some (some coeffs))
    (hok : refraction_index_from_sellmeier 580 coeffs = Except.ok n) :
    onChanged true fp "Material"
      = ⟨true, { fp with Sellmeier := coeffs, RefractionIndex := n }, none⟩ := by
  subst hm
  unfold onChanged onChangedBody
  simp [hS, hlook, hok]

/-- Witness for Claim C9 at the Vacuum catalog entry. -/
theorem material_change_establishes_invariant_witness :
    (LensRecord.mk "Vacuum" [] 0 true).hasSellmeier = true ∧
    (LensRecord.mk "Vacuum" [] 0 true).Material = "Vacuum" ∧
    lookupMaterial "Vacuum" = some (some [0, 0, 0, 0, 0, 0]) ∧
    onChanged true (LensRecord.mk "Vacuum" [] 0 true) "Material"
      = ⟨true, LensRecord.mk "Vacuum" [0, 0, 0, 0, 0, 0] 1 true, none⟩ :=
  ⟨rfl, rfl, by decide,
    material_change_establishes_invariant (LensRecord.mk "Vacuum" [] 0 true) "Vacuum"
      [0, 0, 0, 0, 0, 0] 1 rfl rfl (by decide) vacuum_refraction_eval⟩

/-- Helper: when the checked radicand evaluates without fault, the dispersion
function returns the real square root of that radicand. -/
theorem refraction_index_from_radicand (w : ℚ) (s : List ℚ) (r : ℚ)
    (h : refraction_radicand w s = Except.ok r) :
    refraction_index_from_sellmeier w s = Except.ok (Real.sqrt (r : ℝ)) := by
  unfold refraction_index_from_sellmeier
  rw [h]

/-- Claim C3: for a positive wavelength whose square avoids the three
resonances and a non-negative radicand, the dispersion function returns
exactly the Sellmeier reference formula
`sqrt(1 + B1 l^2/(l^2 - C1) + B2 l^2/(l^2 - C2) + B3 l^2/(l^2 - C3))`
evaluated over the reals. -/
theorem refraction_index_matches_sellmeier_formula
    (l b1 b2 b3 c1 c2 c3 : ℚ) (hl : 0 < l)
    (h1 : l ^ 2 ≠ c1) (h2 : l ^ 2 ≠ c2) (h3 : l ^ 2 ≠ c3)
    (hr : 0 ≤ 1 + b1 * l ^ 2 / (l ^ 2 - c1) + b2 * l ^ 2 / (l ^ 2 - c2)
        + b3 * l ^ 2 / (l ^ 2 - c3)) :
    refraction_index_from_sellmeier l [b1, b2, b3, c1, c2, c3]
      = Except.ok (Real.sqrt (1 + (b1 : ℝ) * (l : ℝ) ^ 2 / ((l : ℝ) ^ 2 - (c1 : ℝ))
          + (b2 : ℝ) * (l : ℝ) ^ 2 / ((l : ℝ) ^ 2 - (c2 : ℝ))
          + (b3 : ℝ) * (l : ℝ) ^ 2 / ((l : ℝ) ^ 2 - (c3 : ℝ)))) := by
  have hrad : refraction_radicand l [b1, b2, b3, c1, c2, c3]
      = Except.ok (1 + b1 * l ^ 2 / (l ^ 2 - c1) + b2 * l ^ 2 / (l ^ 2 - c2)
          + b3 * l ^ 2 / (l ^ 2 - c3)) := by
    have hc : ¬ (l ^ 2 - c1 = 0 ∨ l ^ 2 - c2 = 0 ∨ l ^ 2 - c3 = 0) := by
      push_neg
      exact ⟨sub_ne_zero_of_ne h1, sub_ne_zero_of_ne h2, sub_ne_zero_of_ne h3⟩
    unfold refraction_radicand
    show (if l ^ 2 - c1 = 0 ∨ l ^ 2 - c2 = 0 ∨ l ^ 2 - c3 = 0 then
        Except.error PyError.zeroDivisionError
      else if 1 + b1 * l ^ 2 / (l ^ 2 - c1) + b2 * l ^ 2 / (l ^ 2 - c2)
          + b3 * l ^ 2 / (l ^ 2 - c3) < 0 then
        Except.error PyError.mathDomainError
      else Except.ok (1 + b1 * l ^ 2 / (l ^ 2 - c1) + b2 * l ^ 2 / (l ^ 2 - c2)
          + b3 * l ^ 2 / (l ^ 2 - c3))) = _
    rw [if_neg hc, if_neg (not_lt.mpr hr)]
  rw [refraction_index_from_radicand l [b1, b2, b3, c1, c2, c3] _ hrad]
  congr 1
  push_cast
  ring

/-- Witness for Claim C3 at wavelength 1 with all-zero coefficients. -/
theorem refraction_index_matches_sellmeier_formula_witness :
    (0 : ℚ) < 1 ∧ (1 : ℚ) ^ 2 ≠ 0 ∧
    (0 : ℚ) ≤ 1 + 0 * (1 : ℚ) ^ 2 / ((1 : ℚ) ^ 2 - 0) + 0 * (1 : ℚ) ^ 2 / ((1 : ℚ) ^ 2 - 0)
        + 0 * (1 : ℚ) ^ 2 / ((1 : ℚ) ^ 2 - 0) ∧
    refraction_index_from_sellmeier 1 [0, 0, 0, 0, 0, 0]
      = Except.ok (Real.sqrt (1 + ((0 : ℚ) : ℝ) * ((1 : ℚ) : ℝ) ^ 2 / (((1 : ℚ) : ℝ) ^ 2 - ((0 : ℚ) : ℝ))
          + ((0 : ℚ) : ℝ) * ((1 : ℚ) : ℝ) ^ 2 / (((1 : ℚ) : ℝ) ^ 2 - ((0 : ℚ) : ℝ))
          + ((0 : ℚ) : ℝ) * ((1 : ℚ) : ℝ) ^ 2 / (((1 : ℚ) : ℝ) ^ 2 - ((0 : ℚ) : ℝ)))) :=
  ⟨by norm_num, by norm_num, by norm_num,
    refraction_index_matches_sellmeier_formula 1 0 0 0 0 0 0 (by norm_num) (by norm_num)
      (by norm_num) (by norm_num) (by norm_num)⟩

/-- Helper: the defining equation of `refraction_radicand` on a six-element
coefficient list. -/
theorem refraction_radicand_eq (w b1 b2 b3 c1 c2 c3 : ℚ) :
    refraction_radicand w [b1, b2, b3, c1, c2, c3]
      = if w ^ 2 - c1 = 0 ∨ w ^ 2 - c2 = 0 ∨ w ^ 2 - c3 = 0 then
          Except.error PyError.zeroDivisionError
        else if 1 + b1 * w ^ 2 / (w ^ 2 - c1) + b2 * w ^ 2 / (w ^ 2 - c2)
            + b3 * w ^ 2 / (w ^ 2 - c3) < 0 then
          Except.error PyError.mathDomainError
        else Except.ok (1 + b1 * w ^ 2 / (w ^ 2 - c1) + b2 * w ^ 2 / (w ^ 2 - c2)
            + b3 * w ^ 2 / (w ^ 2 - c3)) := rfl

/-- Claim C5: whenever the squared wavelength hits one of the resonances
`Ci` (zero denominator) or the radicand under the square root is negative,
the dispersion function signals an error to the caller (the zero-division or
math-domain fault) instead of returning a numeric result. -/
theorem refraction_index_signals_domain_error
    (l b1 b2 b3 c1 c2 c3 : ℚ)
    (h : l ^ 2 = c1 ∨ l ^ 2 = c2 ∨ l ^ 2 = c3 ∨
        1 + b1 * l ^ 2 / (l ^ 2 - c1) + b2 * l ^ 2 / (l ^ 2 - c2)
          + b3 * l ^ 2 / (l ^ 2 - c3) < 0) :
    refraction_index_from_sellmeier l [b1, b2, b3, c1, c2, c3]
        = Except.error PyError.zeroDivisionError ∨
    refraction_index_from_sellmeier l [b1, b2, b3, c1, c2, c3]
        = Except.error PyError.mathDomainError := by
  have hrad : refraction_radicand l [b1, b2, b3, c1, c2, c3]
        = Except.error PyError.zeroDivisionError ∨
      refraction_radicand l [b1, b2, b3, c1, c2, c3]
        = Except.error PyError.mathDomainError := by
    rw [refraction_radicand_eq]
    by_cases hz : l ^ 2 - c1 = 0 ∨ l ^ 2 - c2 = 0 ∨ l ^ 2 - c3 = 0
    · left
      rw [if_pos hz]
    · right
      have hneg : 1 + b1 * l ^ 2 / (l ^ 2 - c1) + b2 * l ^ 2 / (l ^ 2 - c2)
          + b3 * l ^ 2 / (l ^ 2 - c3) < 0 := by
        rcases h with h | h | h | h
        · exact absurd (Or.inl (sub_eq_zero.mpr h)) hz
        · exact absurd (Or.inr (Or.inl (sub_eq_zero.mpr h))) hz
        · exact absurd (Or.inr (Or.inr (sub_eq_zero.mpr h))) hz
        · exact h
      rw [if_neg hz, if_pos hneg]
  rcases hrad with hrad | hrad
  · left
    unfold refraction_index_from_sellmeier
    rw [hrad]
  · right
    unfold refraction_index_from_sellmeier
    rw [hrad]

/-- Witness for Claim C5 at wavelength 1 with `C1 = 1` (resonance hit). -/
theorem refraction_index_signals_domain_error_witness :
    ((1 : ℚ) ^ 2 = 1 ∨ (1 : ℚ) ^ 2 = 0 ∨ (1 : ℚ) ^ 2 = 0 ∨
      1 + 0 * (1 : ℚ) ^ 2 / ((1 : ℚ) ^ 2 - 1) + 0 * (1 : ℚ) ^ 2 / ((1 : ℚ) ^ 2 - 0)
        + 0 * (1 : ℚ) ^ 2 / ((1 : ℚ) ^ 2 - 0) < 0) ∧
    (refraction_index_from_sellmeier 1 [0, 0, 0, 1, 0, 0]
        = Except.error PyError.zeroDivisionError ∨
      refraction_index_from_sellmeier 1 [0, 0, 0, 1, 0, 0]
        = Except.error PyError.mathDomainError) :=
  ⟨Or.inl (by norm_num),
    refraction_index_signals_domain_error 1 0 0 0 1 0 0 (Or.inl (by norm_num))⟩
